import Mathlib

/-!
Verification development for the SatisfactoryModManagerAPI repository.

Part A embeds the SML loader manager (smlHandler): version-cache resolution
(getSMLVersionCache), install (installSML), uninstall (uninstallSML) and the
installed-version probe (getSMLVersion).  The filesystem is modelled as an
association list from path strings to file contents, where a file's content is
the version string the native version reader would extract from it (none for
files that carry no readable version, such as the pak artifact).  Directory
existence is derived: a directory exists when some file lives under it, which
is how directories come into being in the source (the downloader writes a file
at a destination path, creating its parents).

Part B embeds the flatpak Steam install finder (steamFlatpak.ts): the
launch-options patcher (setupSteam) as a transformation on lists of
characters, and the discovery pass (getInstalls).
-/

deriving instance DecidableEq for Except

/-- Models path.join for the two-component joins used by the source
(smlHandler and steamFlatpak build paths only by joining plain segments). -/
def pathJoin (a b : String) : String :=
  a ++ "/" ++ b

/-- SMLDLLFileName from smlHandler: the primary (required) artifact. -/
def SMLDLLFileName : String :=
  "UE4-SML-Win64-Shipping.dll"

/-- SMLPakFileName from smlHandler: the secondary (optional) artifact. -/
def SMLPakFileName : String :=
  "SML.pak"

/-- Modelled from the spec: the loader cache root directory (smlCacheDir comes
from the paths module, which is not part of the shown sources; the spec only
requires it to be a fixed directory keyed by normalized version below it). -/
def smlCacheDir : String :=
  "smlcache"

/-- SMLDLLRelativePath from smlHandler. -/
def SMLDLLRelativePath : String :=
  pathJoin "loaders" SMLDLLFileName

/-- SMLPakRelativePath from smlHandler. -/
def SMLPakRelativePath : String :=
  pathJoin "loaders" SMLPakFileName

/-- Boolean test that one string is a prefix of another (on the underlying
character lists). -/
def strHasPrefix (p s : String) : Bool :=
  p.data.isPrefixOf s.data

/-- The filesystem: an association list from absolute path to file content,
where content is the embedded version the native reader would extract
(none when the file has no readable version).  Later writes shadow earlier
entries because lookup takes the first match. -/
structure FileSys where
  files : List (String × Option String)
deriving DecidableEq

/-- Content of the file at a path, if the file exists. -/
def FileSys.lookupFile (fs : FileSys) (p : String) : Option (Option String) :=
  fs.files.lookup p

/-- fs.existsSync on a file path. -/
def FileSys.fileExists (fs : FileSys) (p : String) : Bool :=
  (fs.lookupFile p).isSome

/-- Writing a file (downloadFile destination write or fs.copyFileSync). -/
def FileSys.addFile (fs : FileSys) (p : String) (c : Option String) : FileSys :=
  ⟨(p, c) :: fs.files⟩

/-- fs.unlinkSync. -/
def FileSys.removeFile (fs : FileSys) (p : String) : FileSys :=
  ⟨fs.files.filter (fun e => e.1 != p)⟩

/-- fs.existsSync on a directory path: a directory exists when some file lives
under it (files are the only way the source brings cache directories into
existence, via the downloader writing at a destination path). -/
def FileSys.dirExists (fs : FileSys) (d : String) : Bool :=
  fs.files.any (fun e => strHasPrefix (d ++ "/") e.1)

/-- The network environment seen by one resolve call.
info models getSMLVersionInfo (ficsitApp): the release link for a raw version
string, or none when no release matches.
pakOk and dllOk model whether the downloadFile calls for the secondary and
primary artifacts succeed.  Modelled from the spec: downloadFile writes the
file at its destination path on success (creating parent directories) and
throws on failure, leaving the filesystem unchanged.
dllVer is the version string embedded in the downloaded primary artifact. -/
structure NetEnv where
  info : String → Option String
  pakOk : Bool
  dllOk : Bool
  dllVer : Option String

/-- Errors thrown by the loader manager: ModNotFoundError (component and raw
version, as thrown on coercion failure and on missing release), a failed
download of the primary artifact (the downloadFile error propagates), and a
copy failure (fs.copyFileSync with a missing source). -/
inductive SMLErr where
  | notFound (component version : String)
  | downloadErr
  | copyErr
deriving DecidableEq

/-- getSMLVersionCache from smlHandler, parametrized by the semver coercion
(valid(coerce(version)), an external library) and the network environment.
Returns the outcome together with the filesystem after the call, which the
source mutates even on the failing paths. -/
def getSMLVersionCache (coerce : String → Option String) (net : NetEnv)
    (version : String) (fs : FileSys) : Except SMLErr String × FileSys :=
  match coerce version with
  | none => (Except.error (SMLErr.notFound "SML" version), fs)
  | some validVersion =>
    let smlVersionCacheDir := pathJoin smlCacheDir validVersion
    if fs.dirExists smlVersionCacheDir then (Except.ok smlVersionCacheDir, fs)
    else
      match net.info version with
      | none => (Except.error (SMLErr.notFound "SML" version), fs)
      | some _link =>
        let fs1 := if net.pakOk then
            fs.addFile (pathJoin smlVersionCacheDir SMLPakFileName) none
          else fs
        if net.dllOk then
          (Except.ok smlVersionCacheDir,
            fs1.addFile (pathJoin smlVersionCacheDir SMLDLLFileName) net.dllVer)
        else (Except.error SMLErr.downloadErr, fs1)

/-- Modelled from the spec: the native version reader behind getSMLVersion
(smlVersionNative, a binding outside the shown sources) reads the primary
artifact at its fixed relative path and extracts its embedded version;
absence of the file means absent. -/
def getSMLVersion (fs : FileSys) (satisfactoryPath : String) : Option String :=
  (fs.lookupFile (pathJoin satisfactoryPath SMLDLLRelativePath)).join

/-- JavaScript truthiness of the getSMLVersion result, as used by the guards
in installSML and uninstallSML (undefined and the empty string are falsy). -/
def smlTruthy : Option String → Bool
  | none => false
  | some s => !s.isEmpty

/-- The guard both installSML and uninstallSML branch on. -/
def smlInstalled (fs : FileSys) (satisfactoryPath : String) : Bool :=
  smlTruthy (getSMLVersion fs satisfactoryPath)

/-- installSML from smlHandler.  ensureExists on the two destination parents
needs no explicit model step because directory existence is derived from
files.  The copies read the cache entry's content; copying a missing source
is the copy primitive's error. -/
def installSML (coerce : String → Option String) (net : NetEnv)
    (version satisfactoryPath : String) (fs : FileSys) :
    Except SMLErr Unit × FileSys :=
  if smlInstalled fs satisfactoryPath then (Except.ok (), fs)
  else
    match getSMLVersionCache coerce net version fs with
    | (Except.error e, fs1) => (Except.error e, fs1)
    | (Except.ok smlVersionCache, fs1) =>
      match fs1.lookupFile (pathJoin smlVersionCache SMLDLLFileName) with
      | none => (Except.error SMLErr.copyErr, fs1)
      | some c =>
        let fs2 := fs1.addFile (pathJoin satisfactoryPath SMLDLLRelativePath) c
        match fs2.lookupFile (pathJoin smlVersionCache SMLPakFileName) with
        | some cp =>
          (Except.ok (), fs2.addFile (pathJoin satisfactoryPath SMLPakRelativePath) cp)
        | none => (Except.ok (), fs2)

/-- uninstallSML from smlHandler: no-op when nothing is installed, otherwise
delete each artifact guarded by its own existence check. -/
def uninstallSML (fs : FileSys) (satisfactoryPath : String) : FileSys :=
  if smlInstalled fs satisfactoryPath = false then fs
  else
    let fs1 := if fs.fileExists (pathJoin satisfactoryPath SMLDLLRelativePath) then
        fs.removeFile (pathJoin satisfactoryPath SMLDLLRelativePath)
      else fs
    if fs1.fileExists (pathJoin satisfactoryPath SMLPakRelativePath) then
      fs1.removeFile (pathJoin satisfactoryPath SMLPakRelativePath)
    else fs1

/-- A concrete semver coercion oracle for witnesses: accepts exactly "1.0.0". -/
def coerceStub : String → Option String :=
  fun s => if s = "1.0.0" then some "1.0.0" else none

/-- Network environment in which the release exists, the pak download
succeeds and the DLL download fails. -/
def netPakOnlyDllFails : NetEnv :=
  ⟨fun _ => some "release-link", true, false, some "1.0.0"⟩

/-- The empty filesystem. -/
def fsEmpty : FileSys :=
  ⟨[]⟩

/-- The cache directory of version 1.0.0. -/
def cacheDir100 : String :=
  pathJoin smlCacheDir "1.0.0"

/-- Claim C1: resolving version 1.0.0 on an empty cache, with the pak download
succeeding and the DLL download failing, throws the download error but leaves
the cache directory in existence without the primary artifact, and a second
resolve call then takes the cache-hit path and returns the directory as
complete.  This exhibits the execution the claim says must not exist. -/
theorem c1_cache_dir_without_dll :
    (getSMLVersionCache coerceStub netPakOnlyDllFails "1.0.0" fsEmpty).1
        = Except.error SMLErr.downloadErr
      ∧ ((getSMLVersionCache coerceStub netPakOnlyDllFails "1.0.0" fsEmpty).2).dirExists
          cacheDir100 = true
      ∧ ((getSMLVersionCache coerceStub netPakOnlyDllFails "1.0.0" fsEmpty).2).fileExists
          (pathJoin cacheDir100 SMLDLLFileName) = false
      ∧ getSMLVersionCache coerceStub netPakOnlyDllFails "1.0.0"
          (getSMLVersionCache coerceStub netPakOnlyDllFails "1.0.0" fsEmpty).2
        = (Except.ok cacheDir100,
            (getSMLVersionCache coerceStub netPakOnlyDllFails "1.0.0" fsEmpty).2) := by
  decide

/-- Claim C2 (amended): for a version string that fails coercion, resolve
fails with ModNotFoundError for component SML carrying the raw version, and
install on a directory whose guard reports no loader installed fails the same
way; in both cases the filesystem is returned unchanged and the result does
not depend on the network environment (no network call can have been made). -/
theorem c2_invalid_version_rejected (coerce : String → Option String)
    (net : NetEnv) (V G : String) (fs : FileSys)
    (hc : coerce V = none) (hg : smlInstalled fs G = false) :
    getSMLVersionCache coerce net V fs
        = (Except.error (SMLErr.notFound "SML" V), fs)
      ∧ installSML coerce net V G fs
        = (Except.error (SMLErr.notFound "SML" V), fs) := by
  have hres : getSMLVersionCache coerce net V fs
      = (Except.error (SMLErr.notFound "SML" V), fs) := by
    unfold getSMLVersionCache
    rw [hc]
  refine ⟨hres, ?_⟩
  unfold installSML
  rw [hg]
  simp only [Bool.false_eq_true, if_false, hres]

/-- Witness for C2's amended theorem at concrete inputs. -/
theorem c2_invalid_version_rejected_witness :
    getSMLVersionCache coerceStub netPakOnlyDllFails "bogus" fsEmpty
        = (Except.error (SMLErr.notFound "SML" "bogus"), fsEmpty)
      ∧ installSML coerceStub netPakOnlyDllFails "bogus" "game" fsEmpty
        = (Except.error (SMLErr.notFound "SML" "bogus"), fsEmpty) :=
  c2_invalid_version_rejected coerceStub netPakOnlyDllFails "bogus" "game" fsEmpty
    (by decide) (by decide)

/-- A filesystem in which the game directory already holds a loader. -/
def fsLoaderInstalled : FileSys :=
  ⟨[(pathJoin "game" SMLDLLRelativePath, some "1.0.0")]⟩

/-- Claim C2 counterexample: with a version string that fails coercion but a
game directory that already has a loader installed, installSML returns
successfully (the already-installed no-op) instead of failing with the
NotFoundError the claim requires for every game directory. -/
theorem c2_install_noop_counterexample :
    coerceStub "bogus" = none
      ∧ smlInstalled fsLoaderInstalled "game" = true
      ∧ installSML coerceStub netPakOnlyDllFails "bogus" "game" fsLoaderInstalled
          = (Except.ok (), fsLoaderInstalled) := by
  decide

/-- Lookup of a key after removing exactly that key finds nothing. -/
theorem lookup_filter_self (l : List (String × Option String)) (p : String) :
    (l.filter (fun e => e.1 != p)).lookup p = none := by
  induction l with
  | nil => rfl
  | cons e t ih =>
    by_cases hk : e.1 = p
    · have hf : (e.1 != p) = false := by simp [hk]
      simp [List.filter_cons, hf, ih]
    · have h1 : (e.1 != p) = true := by simp [hk]
      have h2 : (p == e.1) = false := by simp [Ne.symm hk]
      simp [List.filter_cons, h1, List.lookup, h2, ih]

/-- Removing some key preserves the absence of another key. -/
theorem lookup_filter_none (l : List (String × Option String)) (p q : String)
    (h : l.lookup p = none) :
    (l.filter (fun e => e.1 != q)).lookup p = none := by
  induction l with
  | nil => rfl
  | cons e t ih =>
    by_cases hp : p = e.1
    · simp [List.lookup, hp] at h
    · have hb : (p == e.1) = false := by simp [hp]
      simp only [List.lookup, hb] at h
      by_cases hq : e.1 = q
      · have hf : (e.1 != q) = false := by simp [hq]
        simp [List.filter_cons, hf, ih h]
      · have ht : (e.1 != q) = true := by simp [hq]
        simp [List.filter_cons, ht, List.lookup, hb, ih h]

/-- A string is a prefix of itself followed by anything. -/
theorem strHasPrefix_append (p x : String) : strHasPrefix p (p ++ x) = true := by
  unfold strHasPrefix
  rw [String.data_append, List.isPrefixOf_iff_prefix]
  exact List.prefix_append p.data x.data

/-- If no entry of the list lies under directory d, lookup of any path inside
d finds nothing. -/
theorem lookup_none_of_no_prefix (l : List (String × Option String)) (d x : String)
    (h : l.any (fun e => strHasPrefix (d ++ "/") e.1) = false) :
    l.lookup (pathJoin d x) = none := by
  induction l with
  | nil => rfl
  | cons e t ih =>
    rw [List.any_cons, Bool.or_eq_false_iff] at h
    have hne : (pathJoin d x == e.1) = false := by
      refine beq_eq_false_iff_ne.mpr ?_
      intro heq
      rw [← heq] at h
      have : strHasPrefix (d ++ "/") (pathJoin d x) = true := strHasPrefix_append _ _
      rw [this] at h
      exact Bool.true_eq_false.mp h.1
    simp [List.lookup, hne, ih h.2]

/-- FileSys form of the previous lemma: an absent directory has no files
inside it. -/
theorem lookupFile_none_of_dirExists_false (fs : FileSys) (d x : String)
    (h : fs.dirExists d = false) :
    fs.lookupFile (pathJoin d x) = none :=
  lookup_none_of_no_prefix fs.files d x h

/-- Strings whose final characters differ are different. -/
theorem str_ne_of_getLast (a b : String)
    (h : a.data.getLast? ≠ b.data.getLast?) : a ≠ b := by
  intro he
  exact h (by rw [he])

/-- The last character of a joined path is the last character of its final
component. -/
theorem pathJoin_getLast (x y : String) (h : y.data ≠ []) :
    (pathJoin x y).data.getLast? = y.data.getLast? := by
  unfold pathJoin
  rw [String.data_append, List.getLast?_append_of_ne_nil _ h]

/-- Claim C5: on a cache miss with the release found, a failed secondary (pak)
download together with a successful primary (DLL) download still resolves to
the cache directory (which then holds exactly the DLL), a subsequent install
on a loader-free game directory copies only the primary artifact (the final
filesystem gains the cache DLL and the game DLL and nothing else), and,
conversely, a failed primary download makes resolve fail with the propagated
download error whatever happened to the pak. -/
theorem c5_optional_pak_skipped (coerce : String → Option String) (net : NetEnv)
    (V vv link G : String) (fs : FileSys)
    (hc : coerce V = some vv)
    (hd : fs.dirExists (pathJoin smlCacheDir vv) = false)
    (hi : net.info V = some link)
    (hpak : net.pakOk = false)
    (hdll : net.dllOk = true)
    (hg : smlInstalled fs G = false) :
    getSMLVersionCache coerce net V fs
        = (Except.ok (pathJoin smlCacheDir vv),
            fs.addFile (pathJoin (pathJoin smlCacheDir vv) SMLDLLFileName) net.dllVer)
      ∧ installSML coerce net V G fs
        = (Except.ok (),
            (fs.addFile (pathJoin (pathJoin smlCacheDir vv) SMLDLLFileName) net.dllVer).addFile
              (pathJoin G SMLDLLRelativePath) net.dllVer)
      ∧ (∀ net2 : NetEnv, ∀ link2 : String, net2.info V = some link2 →
          net2.dllOk = false →
          (getSMLVersionCache coerce net2 V fs).1 = Except.error SMLErr.downloadErr) := by
  have hres : getSMLVersionCache coerce net V fs
      = (Except.ok (pathJoin smlCacheDir vv),
          fs.addFile (pathJoin (pathJoin smlCacheDir vv) SMLDLLFileName) net.dllVer) := by
    unfold getSMLVersionCache
    rw [hc]
    simp only [hd, hi, hpak, hdll, Bool.false_eq_true, if_false, if_true]
  refine ⟨hres, ?_, ?_⟩
  · have hpakne : (pathJoin (pathJoin smlCacheDir vv) SMLPakFileName
        == pathJoin G SMLDLLRelativePath) = false := by
      refine beq_eq_false_iff_ne.mpr (str_ne_of_getLast _ _ ?_)
      rw [pathJoin_getLast _ _ (by decide), pathJoin_getLast _ _ (by decide)]
      decide
    have hpakne2 : (pathJoin (pathJoin smlCacheDir vv) SMLPakFileName
        == pathJoin (pathJoin smlCacheDir vv) SMLDLLFileName) = false := by
      refine beq_eq_false_iff_ne.mpr (str_ne_of_getLast _ _ ?_)
      rw [pathJoin_getLast _ _ (by decide), pathJoin_getLast _ _ (by decide)]
      decide
    have hnopak : fs.lookupFile
        (pathJoin (pathJoin smlCacheDir vv) SMLPakFileName) = none :=
      lookupFile_none_of_dirExists_false fs _ _ hd
    unfold installSML
    rw [hg]
    simp only [Bool.false_eq_true, if_false, hres]
    simp only [FileSys.lookupFile, FileSys.addFile, List.lookup, beq_self_eq_true,
      hpakne, hpakne2]
    rw [show List.lookup (pathJoin (pathJoin smlCacheDir vv) SMLPakFileName) fs.files
        = none from hnopak]
  · intro net2 link2 hi2 hdll2
    unfold getSMLVersionCache
    rw [hc]
    simp only [hd, hi2, hdll2, Bool.false_eq_true, if_false]

/-- Network environment where both downloads succeed. -/
def netBothOk : NetEnv :=
  ⟨fun _ => some "release-link", true, true, some "1.0.0"⟩

/-- Network environment where the pak download fails and the DLL succeeds. -/
def netNoPak : NetEnv :=
  ⟨fun _ => some "release-link", false, true, some "1.0.0"⟩

/-- Witness for C5 at concrete inputs. -/
theorem c5_optional_pak_skipped_witness :
    getSMLVersionCache coerceStub netNoPak "1.0.0" fsEmpty
        = (Except.ok (pathJoin smlCacheDir "1.0.0"),
            fsEmpty.addFile (pathJoin (pathJoin smlCacheDir "1.0.0") SMLDLLFileName)
              (some "1.0.0"))
      ∧ installSML coerceStub netNoPak "1.0.0" "game" fsEmpty
        = (Except.ok (),
            (fsEmpty.addFile (pathJoin (pathJoin smlCacheDir "1.0.0") SMLDLLFileName)
              (some "1.0.0")).addFile
              (pathJoin "game" SMLDLLRelativePath) (some "1.0.0")) := by
  have h := c5_optional_pak_skipped coerceStub netNoPak "1.0.0" "1.0.0"
    "release-link" "game" fsEmpty (by decide) (by decide) (by decide) (by decide)
    (by decide) (by decide)
  exact ⟨h.1, h.2.1⟩

/-- After uninstallSML the installed-loader guard always reports absent:
either nothing was installed (no-op) or the primary artifact was deleted. -/
theorem uninstall_reports_absent (fs : FileSys) (G : String) :
    smlInstalled (uninstallSML fs G) G = false := by
  unfold uninstallSML
  cases hI : smlInstalled fs G with
  | false => simp [hI]
  | true =>
    have hex : fs.fileExists (pathJoin G SMLDLLRelativePath) = true := by
      unfold smlInstalled getSMLVersion at hI
      cases hL : fs.lookupFile (pathJoin G SMLDLLRelativePath) with
      | none => rw [hL] at hI; simp [Option.join, smlTruthy] at hI
      | some c => simp [FileSys.fileExists, hL]
    have hgone : (fs.removeFile (pathJoin G SMLDLLRelativePath)).lookupFile
        (pathJoin G SMLDLLRelativePath) = none :=
      lookup_filter_self fs.files (pathJoin G SMLDLLRelativePath)
    simp only [hI, if_false, hex, if_true, Bool.true_eq_false]
    cases hpk : (fs.removeFile (pathJoin G SMLDLLRelativePath)).fileExists
        (pathJoin G SMLPakRelativePath) with
    | false =>
      simp only [hpk, Bool.false_eq_true, if_false]
      simp [smlInstalled, getSMLVersion, hgone, smlTruthy, Option.join]
    | true =>
      simp only [hpk, if_true]
      have : ((fs.removeFile (pathJoin G SMLDLLRelativePath)).removeFile
          (pathJoin G SMLPakRelativePath)).lookupFile
          (pathJoin G SMLDLLRelativePath) = none :=
        lookup_filter_none _ _ _ hgone
      simp [smlInstalled, getSMLVersion, this, smlTruthy, Option.join]

/-- Claim C7: installing a successfully resolving version into a loader-free
game directory and then immediately uninstalling leaves the directory in a
state where the installed-version probe reports absent, whatever the network
did about the secondary artifact. -/
theorem c7_install_uninstall_absent (coerce : String → Option String)
    (net : NetEnv) (V G D : String) (fs : FileSys)
    (_hg : smlInstalled fs G = false)
    (_hr : (getSMLVersionCache coerce net V fs).1 = Except.ok D) :
    smlInstalled (uninstallSML (installSML coerce net V G fs).2 G) G = false :=
  uninstall_reports_absent _ _

/-- Witness for C7 at concrete inputs (both artifacts in the cache). -/
theorem c7_install_uninstall_absent_witness :
    smlInstalled (uninstallSML
      (installSML coerceStub netBothOk "1.0.0" "game" fsEmpty).2 "game") "game" = false :=
  c7_install_uninstall_absent coerceStub netBothOk "1.0.0" "game"
    (pathJoin smlCacheDir "1.0.0") fsEmpty (by decide) (by decide)

/-- First-occurrence split: splitFirst pat s = some (pre, post) when
s = pre ++ pat ++ post with pre shortest, none when pat does not occur.
This is the semantics of JavaScript indexOf-based search. -/
def splitFirst (pat : List Char) : List Char → Option (List Char × List Char)
  | [] => if pat.isPrefixOf ([] : List Char) then some ([], []) else none
  | c :: rest =>
    if pat.isPrefixOf (c :: rest) then some ([], (c :: rest).drop pat.length)
    else (splitFirst pat rest).map (fun r => (c :: r.1, r.2))

/-- String.prototype.includes. -/
def containsL (pat s : List Char) : Bool :=
  (splitFirst pat s).isSome

/-- String.prototype.replace with a plain string pattern: replaces the first
occurrence only (the replacement strings used by the source contain no
dollar patterns). -/
def replaceFirst (pat repl s : List Char) : List Char :=
  match splitFirst pat s with
  | none => s
  | some r => r.1 ++ repl ++ r.2

/-- Line terminators, which the dot of a JavaScript regex does not match. -/
def hasNL (l : List Char) : Bool :=
  l.any (fun c => c == '\n' || c == '\r')

/-- The literal before the capture group of the setupSteam regex: the text
WINEDLLOVERRIDES= followed by a backslash and a double quote. -/
def markerChars : List Char :=
  "WINEDLLOVERRIDES=\\\"".toList

/-- The closing delimiter of the overrides block: backslash, double quote. -/
def bsQuote : List Char :=
  "\\\"".toList

/-- The required WINEDLLOVERRIDES sub-value. -/
def reqFlag : List Char :=
  "msdia140.dll,xinput1_3.dll=n,b".toList

/-- A semicolon followed by the required sub-value (the pattern the dedup
loop removes). -/
def semiReq : List Char :=
  ';' :: reqFlag

/-- The adjacent-duplicate pattern the dedup branch tests for. -/
def dupReq : List Char :=
  reqFlag ++ semiReq

/-- The command placeholder appended when launch options were absent. -/
def commandTail : List Char :=
  " %command%".toList

/-- Launch options written when the field was absent or empty (line 92). -/
def defaultLaunchOptions : List Char :=
  markerChars ++ reqFlag ++ bsQuote ++ commandTail

/-- Launch options produced by prepending the override block (line 76). -/
def prependPatch (s : List Char) : List Char :=
  markerChars ++ reqFlag ++ bsQuote ++ [' '] ++ s

/-- Fuelled evaluation of the first match of the setupSteam regex
WINEDLLOVERRIDES=backslash-quote, lazily captured block, backslash-quote.
A match at a marker occurrence succeeds when a closing delimiter follows with
no line terminator in between (dot does not cross lines); otherwise the
engine moves on to the next marker occurrence, which lies inside the
remainder because the marker cannot overlap itself (its only W is first).
Each recursion step consumes at least the marker, so fuel equal to the input
length always suffices; the result is the text before the match, the captured
block and the text after the match. -/
def execWineF : Nat → List Char → Option (List Char × List Char × List Char)
  | 0, _ => none
  | fuel + 1, s =>
    match splitFirst markerChars s with
    | none => none
    | some (pre, rest) =>
      match splitFirst bsQuote rest with
      | none => none
      | some (blk, post) =>
        if hasNL blk then
          (execWineF fuel rest).map (fun r => (pre ++ markerChars ++ r.1, r.2.1, r.2.2))
        else some (pre, blk, post)

/-- The first match of the setupSteam regex on a launch-options string. -/
def execWine (s : List Char) : Option (List Char × List Char × List Char) :=
  execWineF s.length s

/-- Fuelled model of the dedup while loop (lines 84-86): while the block
contains the adjacent duplicate, remove the first semicolon-plus-required
occurrence.  Every iteration removes a nonempty pattern, so fuel equal to
the block length always suffices. -/
def dedupF : Nat → List Char → List Char
  | 0, s => s
  | fuel + 1, s =>
    if containsL dupReq s then dedupF fuel (replaceFirst semiReq [] s) else s

/-- The dedup loop of setupSteam. -/
def dedupOverrides (s : List Char) : List Char :=
  dedupF s.length s

/-- The launch-options rewrite of setupSteam (lines 73-94) as a pure string
transformation, returning the new value and the changed flag.  The branches
mirror the source: no regex match prepends the block; block without the
required sub-value appends it inside the block; block with the adjacent
duplicate runs the dedup loop and re-appends the sub-value; otherwise the
string is left unchanged with changed false. -/
def patchLaunchOptions (s : List Char) : List Char × Bool :=
  match execWine s with
  | none => (prependPatch s, true)
  | some r =>
    if containsL reqFlag r.2.1 = false then
      (replaceFirst (markerChars ++ r.2.1 ++ bsQuote)
        (markerChars ++ r.2.1 ++ semiReq ++ bsQuote) s, true)
    else if containsL dupReq r.2.1 then
      (replaceFirst (markerChars ++ r.2.1 ++ bsQuote)
        (markerChars ++ dedupOverrides r.2.1 ++ semiReq ++ bsQuote) s, true)
    else (s, false)

/-- The rewrite including the JavaScript truthiness test on the field
(line 73): an absent or empty launch-options value takes the default
branch. -/
def patchOptional (lo : Option (List Char)) : List Char × Bool :=
  let s := lo.getD []
  if s.isEmpty then (defaultLaunchOptions, true) else patchLaunchOptions s

set_option maxRecDepth 100000

/-- Launch options whose override block is exactly the required sub-value
duplicated adjacently. -/
def c3Input : List Char :=
  markerChars ++ reqFlag ++ semiReq ++ bsQuote ++ commandTail

/-- Claim C3: on a block holding the required sub-value duplicated adjacently,
the rewrite returns the input unchanged (the dedup loop strips the block down
to a single occurrence but the rewrite then re-appends the sub-value) while
still reporting a change; the required sub-value occurs twice in the result,
not exactly once as the claim requires. -/
theorem c3_dedup_leaves_duplicate :
    patchLaunchOptions c3Input = (c3Input, true)
      ∧ containsL dupReq c3Input = true := by
  decide

/-- Override block A, required, required, x-required: adjacent duplicate with
another flag fragment after it. -/
def c6Block : List Char :=
  ('A' :: semiReq) ++ semiReq ++ ('x' :: reqFlag)

/-- Launch options around c6Block. -/
def c6Input : List Char :=
  markerChars ++ c6Block ++ bsQuote ++ commandTail

/-- What one application of the rewrite produces on c6Input. -/
def c6Once : List Char :=
  markerChars ++ (('A' :: semiReq) ++ ('x' :: reqFlag) ++ semiReq) ++ bsQuote ++ commandTail

/-- What a second application produces. -/
def c6Twice : List Char :=
  markerChars ++ (('A' :: 'x' :: reqFlag) ++ semiReq) ++ bsQuote ++ commandTail

/-- Claim C6: the rewrite is not idempotent as a string transformation.
On a block containing the adjacent duplicate next to other content, the first
application moves the duplicated sub-value around (the dedup loop removes the
first semicolon-plus-required occurrence, which need not be one of the
adjacent pair, and the rewrite then re-appends the sub-value), and a second
application changes the string again. -/
theorem c6_patch_not_idempotent :
    patchLaunchOptions c6Input = (c6Once, true)
      ∧ patchLaunchOptions c6Once = (c6Twice, true)
      ∧ c6Twice ≠ c6Once := by
  decide

/-- What one user profile under userdata presents to setupSteam.
throwsEarly: reading, parsing, or the appid key access throws (the generic
error path, caught and logged by the per-profile catch).
noApps: neither the apps nor the Apps key exists (error logged, profile
skipped).
options: the profile parses and carries this LaunchOptions value for the
game's appid. -/
inductive ProfileData where
  | throwsEarly
  | noApps
  | options (lo : Option (List Char))
deriving DecidableEq

/-- The observable effects of processing one profile: whether isRunning was
consulted, whether the config file was written back, whether a SetupError was
thrown, and the final launch-options value. -/
structure ProfileStep where
  checked : Bool
  wrote : Bool
  setupErr : Bool
  finalOptions : Option (List Char)
deriving DecidableEq

/-- One iteration of the setupSteam per-profile body (lines 61-108): compute
the patched launch options; when nothing changed, neither the liveness check
nor the write happens; when a change is needed, isRunning is consulted first,
a running launcher raises SetupError without writing, and otherwise the file
is written back. -/
def setupProfile (running : Bool) (p : ProfileData) : ProfileStep :=
  match p with
  | ProfileData.throwsEarly => ⟨false, false, false, none⟩
  | ProfileData.noApps => ⟨false, false, false, none⟩
  | ProfileData.options lo =>
    if (patchOptional lo).2 then
      if running then ⟨true, false, true, lo⟩
      else ⟨true, true, false, some (patchOptional lo).1⟩
    else ⟨false, false, false, lo⟩

/-- Modelled from the spec: forEachAsync (a utility outside the shown
sources) visits the profiles in order and lets an exception thrown by the
callback propagate; the per-profile catch rethrows SetupError, so a
SetupError stops the traversal and reaches setupSteam's caller, while every
other error is logged and the traversal continues.  Returns the steps of the
profiles actually processed and whether a SetupError propagated. -/
def setupSteamRun (running : Bool) : List ProfileData → List ProfileStep × Bool
  | [] => ([], false)
  | p :: ps =>
    let st := setupProfile running p
    if st.setupErr then ([st], true)
    else
      let r := setupSteamRun running ps
      (st :: r.1, r.2)

/-- A write happens only after the liveness check confirmed the launcher is
not running. -/
theorem setupProfile_wrote_checked (running : Bool) (p : ProfileData)
    (h : (setupProfile running p).wrote = true) :
    (setupProfile running p).checked = true ∧ running = false := by
  cases p with
  | throwsEarly => simp [setupProfile] at h
  | noApps => simp [setupProfile] at h
  | options lo =>
    cases hr : (patchOptional lo).2 <;> cases hb : running <;>
      simp [setupProfile, hr, hb] at h ⊢

/-- A SetupError is raised before any write of that profile's file. -/
theorem setupProfile_err_no_write (running : Bool) (p : ProfileData)
    (h : (setupProfile running p).setupErr = true) :
    (setupProfile running p).wrote = false := by
  cases p with
  | throwsEarly => simp [setupProfile] at h
  | noApps => simp [setupProfile] at h
  | options lo =>
    cases hr : (patchOptional lo).2 <;> cases hb : running <;>
      simp [setupProfile, hr, hb] at h ⊢

/-- Claim C9: across a setupSteam pass, (1) every profile whose file was
written had the liveness check pass first (check consulted and launcher not
running); (2) a profile that raised SetupError did so without writing and the
error propagated out of the pass; (3) with the launcher running, a profile
needing a change raises SetupError after the check, without writing; and
(4) a profile whose processing throws a generic error does not stop the
remaining profiles from being processed. -/
theorem c9_write_guard_and_isolation (running : Bool) (ps : List ProfileData) :
    (∀ st ∈ (setupSteamRun running ps).1, st.wrote = true →
        st.checked = true ∧ running = false)
      ∧ (∀ st ∈ (setupSteamRun running ps).1, st.setupErr = true →
          st.wrote = false ∧ (setupSteamRun running ps).2 = true)
      ∧ (∀ lo : Option (List Char), (patchOptional lo).2 = true →
          setupProfile true (ProfileData.options lo) = ⟨true, false, true, lo⟩)
      ∧ setupSteamRun running (ProfileData.throwsEarly :: ps)
          = (setupProfile running ProfileData.throwsEarly :: (setupSteamRun running ps).1,
              (setupSteamRun running ps).2) := by
  refine ⟨?_, ?_, ?_, ?_⟩
  · induction ps with
    | nil => intro st h; simp [setupSteamRun] at h
    | cons p t ih =>
      intro st hmem hw
      simp only [setupSteamRun] at hmem
      cases he : (setupProfile running p).setupErr with
      | true =>
        simp only [he, if_true, List.mem_singleton] at hmem
        exact hmem ▸ setupProfile_wrote_checked running p (hmem ▸ hw)
      | false =>
        simp only [he, Bool.false_eq_true, if_false, List.mem_cons] at hmem
        rcases hmem with rfl | hmem
        · exact setupProfile_wrote_checked running p hw
        · exact ih st hmem hw
  · induction ps with
    | nil => intro st h; simp [setupSteamRun] at h
    | cons p t ih =>
      intro st hmem herr
      simp only [setupSteamRun] at hmem ⊢
      cases he : (setupProfile running p).setupErr with
      | true =>
        simp only [he, if_true, List.mem_singleton] at hmem ⊢
        exact ⟨hmem ▸ setupProfile_err_no_write running p (hmem ▸ herr), trivial⟩
      | false =>
        simp only [he, Bool.false_eq_true, if_false, List.mem_cons] at hmem ⊢
        rcases hmem with rfl | hmem
        · rw [he] at herr; exact absurd herr (by simp)
        · exact ih st hmem herr
  · intro lo h
    simp [setupProfile, h]
  · simp [setupSteamRun, setupProfile]

/-- Witness for C9 at concrete inputs: with the launcher running, a profile
with empty launch options (which needs the default written) raises SetupError
without writing, and the error propagates; a throwing profile is followed by
the processing of the rest. -/
theorem c9_write_guard_and_isolation_witness :
    setupProfile true (ProfileData.options (some [])) = ⟨true, false, true, some []⟩
      ∧ setupSteamRun true (ProfileData.throwsEarly :: [ProfileData.options none])
        = (setupProfile true ProfileData.throwsEarly
            :: (setupSteamRun true [ProfileData.options none]).1,
            (setupSteamRun true [ProfileData.options none]).2) :=
  ⟨(c9_write_guard_and_isolation true []).2.2.1 (some []) (by decide),
    (c9_write_guard_and_isolation true [ProfileData.options none]).2.2.2⟩

/-- Claim C10: a profile whose launch-options string is already conformant
(the override block matches, holds the required sub-value and shows no
adjacent duplicate) is processed with no liveness check, no write and no
SetupError, its options byte-for-byte unchanged, whatever the launcher's
running state. -/
theorem c10_conformant_no_write (running : Bool) (s pre blk post : List Char)
    (hne : s.isEmpty = false)
    (hm : execWine s = some (pre, blk, post))
    (hreq : containsL reqFlag blk = true)
    (hdup : containsL dupReq blk = false) :
    setupProfile running (ProfileData.options (some s)) = ⟨false, false, false, some s⟩ := by
  have hp : patchOptional (some s) = (s, false) := by
    unfold patchOptional
    simp only [Option.getD_some, hne, Bool.false_eq_true, if_false]
    unfold patchLaunchOptions
    rw [hm]
    simp [hreq, hdup]
  simp [setupProfile, hp]

/-- Witness for C10: the default options string is conformant and is left
alone even while the launcher runs. -/
theorem c10_conformant_no_write_witness :
    setupProfile true (ProfileData.options (some defaultLaunchOptions))
      = ⟨false, false, false, some defaultLaunchOptions⟩ :=
  c10_conformant_no_write true defaultLaunchOptions [] reqFlag commandTail
    (by decide) (by decide) (by decide) (by decide)

/-- The launch command attached to every flatpak Steam candidate. -/
def steamLaunchCommand : String :=
  "flatpak run com.valvesoftware.Steam steam://rungameid/526870"

/-- What one library root presents to getInstalls: no app manifest file at
all, a manifest whose parse throws, a parse result without AppState, or a
parsed AppState with its fields, whether the game executable exists at the
expected relative path, and the version the executable reader would
return. -/
inductive RootState where
  | noManifest
  | parseThrows
  | noAppState
  | appState (name installdir : String) (betakey : Option String)
      (exeExists : Bool) (gameVersion : String)
deriving DecidableEq

/-- A library root: its folder path and its manifest state. -/
structure SteamRoot where
  lib : String
  state : RootState
deriving DecidableEq

/-- A normalized discovered install (SatisfactoryInstall construction,
lines 136-143). -/
structure SFCandidate where
  displayName : String
  version : String
  branch : String
  installPath : String
  launchPath : String
deriving DecidableEq

/-- libraryFolder/steamapps/common/installdir (line 129). -/
def fullInstallPath (lib installdir : String) : String :=
  pathJoin (pathJoin (pathJoin lib "steamapps") "common") installdir

/-- betakey or the default EA branch; an empty betakey is falsy (line 139). -/
def branchOf (bk : Option String) : String :=
  match bk with
  | none => "EA"
  | some b => if b.isEmpty then "EA" else b

/-- Charwise lower-casing (String.prototype.toLowerCase on the ASCII beta
keys the manifests carry). -/
def strToLower (s : String) : String :=
  ⟨s.data.map Char.toLower⟩

/-- Display name with the Experimental/Early Access tag (line 137). -/
def displayNameOf (name : String) (bk : Option String) : String :=
  name ++ " "
    ++ (if strToLower (bk.getD "") = "experimental" then "Experimental" else "Early Access")
    ++ " (Steam)"

/-- The invalid-install contribution of one root: manifest valid but game
executable missing (lines 131-134).  This push happens synchronously, before
the callback's first await. -/
def perRootInvalid (r : SteamRoot) : Option String :=
  match r.state with
  | RootState.appState _ d _ false _ => some (fullInstallPath r.lib d)
  | _ => none

/-- The candidate contribution of one root: manifest valid and executable
present (lines 135-143).  This push happens only after the awaited
executable version read. -/
def perRootCandidate (r : SteamRoot) : Option SFCandidate :=
  match r.state with
  | RootState.appState n d bk true v =>
    some ⟨displayNameOf n bk, v, branchOf bk, fullInstallPath r.lib d, steamLaunchCommand⟩
  | _ => none

/-- Whether processing this root throws (the vdf parse on a corrupt
manifest, line 124, has no per-root catch around it). -/
def rootFails (r : SteamRoot) : Bool :=
  match r.state with
  | RootState.parseThrows => true
  | _ => false

/-- The InstallFindResult shape returned by getInstalls. -/
structure FindResult where
  installs : List SFCandidate
  invalidInstalls : List String
deriving DecidableEq

/-- The library-root loop of getInstalls (lines 121-148).  The per-root
callbacks run under Promise.all with no per-root catch, and the only handler
wraps the whole loop.  Synchronous work (manifest checks and the
invalid-install pushes) runs for every root before the batch can reject, so
invalidInstalls collects every executable-missing root.  Candidate pushes
happen after the awaited executable version read: when no root throws,
awaiting Promise.all makes every valid root contribute; when some root
throws, the rejection is handled by the outer catch and the function returns,
so only roots whose awaited read had already completed contribute.  The
completed parameter models that completion timing, which depends on
input/output scheduling. -/
def getInstallsModel (roots : List SteamRoot) (completed : Nat → Bool) : FindResult :=
  let anyThrow := roots.any rootFails
  ⟨roots.enum.filterMap (fun ir =>
      if anyThrow && !(completed ir.1) then none else perRootCandidate ir.2),
    roots.filterMap perRootInvalid⟩

/-- The valid sibling root used to exhibit C4. -/
def c4ValidRoot : SteamRoot :=
  ⟨"lib2", RootState.appState "Satisfactory" "Satisfactory" none true "118008"⟩

/-- A corrupt root followed by a valid sibling. -/
def c4Roots : List SteamRoot :=
  [⟨"lib1", RootState.parseThrows⟩, c4ValidRoot]

/-- Claim C4: with a corrupt manifest in one library root and a fully valid
sibling root, under the schedule in which the sibling's awaited executable
read has not completed when the batch rejection is handled (the ordering the
event loop produces, since the rejection is handled on the microtask queue
while the read waits on input/output), getInstalls returns with no installs
at all: the valid sibling's candidate is lost, not merely reordered. -/
theorem c4_sibling_lost_on_failure :
    rootFails ⟨"lib1", RootState.parseThrows⟩ = true
      ∧ perRootCandidate c4ValidRoot
        = some ⟨displayNameOf "Satisfactory" none, "118008", "EA",
            fullInstallPath "lib2" "Satisfactory", steamLaunchCommand⟩
      ∧ (getInstallsModel c4Roots (fun _ => false)).installs = [] := by
  decide

/-- Claim C8: a root whose manifest parses to a valid AppState but whose
executable is missing contributes its full install path to invalidInstalls
and can never contribute a candidate; a root with no manifest file
contributes to neither list. -/
theorem c8_exe_missing_invalid (roots : List SteamRoot) (completed : Nat → Bool)
    (r : SteamRoot) (nm d : String) (bk : Option String) (v : String) :
    (r.state = RootState.appState nm d bk false v → r ∈ roots →
        fullInstallPath r.lib d ∈ (getInstallsModel roots completed).invalidInstalls
          ∧ perRootCandidate r = none)
      ∧ (r.state = RootState.noManifest →
          perRootInvalid r = none ∧ perRootCandidate r = none
            ∧ getInstallsModel [r] completed = ⟨[], []⟩) := by
  constructor
  · intro hs hmem
    refine ⟨?_, by simp [perRootCandidate, hs]⟩
    have hinv : perRootInvalid r = some (fullInstallPath r.lib d) := by
      simp [perRootInvalid, hs]
    show fullInstallPath r.lib d ∈ roots.filterMap perRootInvalid
    exact List.mem_filterMap.mpr ⟨r, hmem, hinv⟩
  · intro hs
    refine ⟨by simp [perRootInvalid, hs], by simp [perRootCandidate, hs], ?_⟩
    simp [getInstallsModel, rootFails, perRootInvalid, perRootCandidate, hs]

/-- A root with a valid manifest but no executable on disk. -/
def c8Root : SteamRoot :=
  ⟨"libX", RootState.appState "Satisfactory" "SatisfactoryDir" none false "0"⟩

/-- Witness for C8 at concrete inputs. -/
theorem c8_exe_missing_invalid_witness :
    fullInstallPath "libX" "SatisfactoryDir"
        ∈ (getInstallsModel [c8Root] (fun _ => true)).invalidInstalls
      ∧ perRootCandidate c8Root = none :=
  (c8_exe_missing_invalid [c8Root] (fun _ => true) c8Root "Satisfactory"
    "SatisfactoryDir" none "0").1 rfl (by simp)
